import Mathlib

/-
Verification of the esgpull core against its natural-language specification.

The Python sources embedded here (shallowly) are:
  - esgpull/models/query.py   (Query, merge via the lshift operator, identity hashing)
  - esgpull/db/models.py      (FileStatus, File.from_dict, File.get_local_path, Param)
  - esgpull/cli/retry.py      (the retry command)
  - esgpull/__init__.py       (Esgpull.fetch_params, the facet-vocabulary refresh)

Conventions:
  - Python strings are embedded as `String` where only whole-value equality
    matters, and as `Str := List Char` where the code slices and splits them.
  - Fallible Python code (KeyError, AttributeError, IndexError, assert) is
    embedded in the `Option` monad (`none` = an exception escaped).
  - Python dicts are association lists; lookup takes the first matching key
    (a dict never holds duplicate keys, so this is faithful).
-/

set_option autoImplicit false

namespace Esgpull

/-! ## Options and Selection

`esgpull/models/options.py` and `selection.py` are not part of the sources;
they are modelled from the spec. -/

/-- Modelled from the spec: `options.py` is missing from the sources.
"Options: a fixed set of named tri-state/boolean flags ... Unset flags are
omitted from the hash input."  We represent the explicitly-set flags as an
association list from flag name to boolean value; `items()` yields exactly
the explicitly-set flags. -/
structure Options where
  flags : List (String × Bool)
deriving DecidableEq, Repr

/-- Replace the value at key `k` in place if present, else append the pair
(the Python dict / attribute-set update order). -/
def assocSet {α : Type} (l : List (String × α)) (k : String) (v : α) :
    List (String × α) :=
  match l with
  | [] => [(k, v)]
  | (k2, v2) :: rest =>
    if k2 = k then (k, v) :: rest else (k2, v2) :: assocSet rest k v

/-- Modelled from the spec: setting a flag on an Options value
(`setattr(options, name, value)` in `query.py`). -/
def Options.setFlag (o : Options) (name : String) (b : Bool) : Options :=
  ⟨assocSet o.flags name b⟩

/-- Modelled from the spec: `selection.py` is missing from the sources.
"Selection: mapping from facet-name to an ordered, deduplicated list of
string values." -/
structure Selection where
  facets : List (String × List String)
deriving DecidableEq, Repr

/-- Python `selection[name] = values`: the facet's value list is entirely replaced
(dict item assignment). -/
def Selection.set (s : Selection) (name : String) (values : List String) :
    Selection :=
  ⟨assocSet s.facets name values⟩

/-! ### Content-address identities (spec §4.1)

The hash function itself (`sha1` in `models/base.py`, absent from the
sources) is kept abstract: every identity below is `hashFn` applied to a
canonical serialization, exactly as the spec prescribes, and the theorems
hold for an arbitrary `hashFn`. -/

/-- Insertion into a by-key sorted list of pairs. -/
def insertPair (p : String × String) :
    List (String × String) → List (String × String)
  | [] => [p]
  | q :: rest => if p.1 < q.1 then p :: q :: rest else q :: insertPair p rest

/-- Sort a pair list by key (canonical ordering before serialization,
spec §4.1). -/
def sortPairs (l : List (String × String)) : List (String × String) :=
  l.foldr insertPair []

/-- Render a pair list to one string (the canonical byte sequence fed to the
hash). -/
def renderPairs (l : List (String × String)) : String :=
  l.foldl (fun acc p => acc ++ "(" ++ p.1 ++ "," ++ p.2 ++ ")") ""

/-- Modelled from the spec: "Options identity = hash(sorted flag→value
pairs. Unset flags are omitted from the hash input." -/
def Options.shaInput (o : Options) : String :=
  renderPairs (sortPairs (o.flags.map
    fun p => (p.1, if p.2 then "True" else "False")))

def Options.sha (hashFn : String → String) (o : Options) : String :=
  hashFn o.shaInput

def joinComma (l : List String) : String :=
  l.foldl (fun acc v => acc ++ v ++ ",") ""

/-- Modelled from the spec: "Selection identity = hash(sorted facet-name →
value-list pairs, values kept in insertion order within each facet)." -/
def Selection.shaInput (s : Selection) : String :=
  renderPairs (sortPairs (s.facets.map fun p => (p.1, joinComma p.2)))

def Selection.sha (hashFn : String → String) (s : Selection) : String :=
  hashFn s.shaInput

/-! ## Query (esgpull/models/query.py) -/

/-- The Query model of `models/query.py`.  Tags are represented by their
names (a Tag is a named, content-addressed string; `tag.py` is absent and
the spec says "Tag: name (string). Identity = hash(name)").  The `files`
relationship and the lazily cached `sha` column are persistence concerns
with no bearing on the claims; identities are computed by the pure
functions below, mirroring `compute_sha`. -/
structure Query where
  tags : List String
  transient : Bool
  require : Option String
  options : Options
  selection : Selection
deriving DecidableEq, Repr

/-- The single quote character (Python `repr` delimiters). -/
def sq : String := String.singleton (Char.ofNat 39)

/-- Python `repr` of a string (as it appears inside `str(tuple)`). -/
def pyRepr (s : String) : String := sq ++ s ++ sq

/-- Python `str`/`repr` of an optional string. -/
def pyReprOpt : Option String → String
  | none => "None"
  | some s => pyRepr s

/-- Embeds `Query._as_bytes`:
`str((self.require, self.options.sha, self.selection.sha)).encode()`.
`compute_sha` first recomputes the children's shas, so the cached values
read here equal the pure identities of the current options/selection. -/
def Query.asBytes (hashFn : String → String) (q : Query) : String :=
  "(" ++ pyReprOpt q.require ++ ", " ++ pyRepr (q.options.sha hashFn)
    ++ ", " ++ pyRepr (q.selection.sha hashFn) ++ ")"

/-- Embeds `Query.compute_sha` (via `Base.compute_sha` hashing `_as_bytes`). -/
def Query.computeSha (hashFn : String → String) (q : Query) : String :=
  hashFn (q.asBytes hashFn)

/-- Embeds `Query.clone`: `Query(**self.asdict())`.  `asdict` serializes tags,
transient, require, options and selection (omitting each when it equals the
constructor default), and the constructor rebuilds them, so on the pure
model a clone is a field-for-field copy. -/
def Query.clone (q : Query) : Query :=
  ⟨q.tags, q.transient, q.require, q.options, q.selection⟩

/-- Embeds `Query.__lshift__(self, other)` — the merge operator.  The Python body
mutates `self.options` (its options loop targets `self`, not `result`),
so the embedding returns both the merged query (first component) and the
post-call state of the receiver `self` (second component):

    result = self.clone(compute_sha=False)
    for tag in other.tags:
        if tag not in self.tags:
            result.tags.append(tag)
    for name, option in other.options.items():
        setattr(self.options, name, option)
    for name, values in other.selection.items():
        result.selection[name] = values
    result.transient = other.transient
    result.compute_sha()
    return result

`result.options` is a fresh copy of `self.options` made by `clone` before
the options loop runs, so the loop's writes to `self.options` never reach
it. -/
def Query.lshift (self other : Query) : Query × Query :=
  let result := self.clone
  let tags := result.tags ++ other.tags.filter (fun t => ¬ t ∈ self.tags)
  let selfOptions :=
    other.options.flags.foldl (fun o p => o.setFlag p.1 p.2) self.options
  let selection :=
    other.selection.facets.foldl (fun s p => s.set p.1 p.2) result.selection
  ({ result with
      tags := tags
      selection := selection
      transient := other.transient },
   { self with options := selfOptions })

/-! ## FileStatus and the retry command

`esgpull/db/models.py` defines the status enum; `esgpull/cli/retry.py`
implements the retry command.  The CLI imports `FileStatus` from the
`esgpull.models` package, whose `file.py` is absent from the sources; it is
modelled from the spec, whose lifecycle states are
"new, queued, starting, started, pausing, paused, error, cancelled, done" —
the same member names as the in-source enum in `db/models.py`. -/

/-- The `FileStatus` enum of `esgpull/db/models.py` (member names are the
lowercase state names, each with itself as string value). -/
inductive FileStatus where
  | new
  | queued
  | starting
  | started
  | pausing
  | paused
  | error
  | cancelled
  | done
deriving DecidableEq, Repr

/-- Embeds `FileStatus.retryable()`. -/
def FileStatus.retryable : List FileStatus :=
  [ FileStatus.new
  , FileStatus.starting
  , FileStatus.started
  , FileStatus.pausing
  , FileStatus.paused
  , FileStatus.error
  , FileStatus.cancelled
  ]

/-- Python attribute access `FileStatus.<name>` on the enum class: member
lookup by attribute name; `none` models `AttributeError`. -/
def FileStatus.memberByName (s : String) : Option FileStatus :=
  if s = "new" then some FileStatus.new
  else if s = "queued" then some FileStatus.queued
  else if s = "starting" then some FileStatus.starting
  else if s = "started" then some FileStatus.started
  else if s = "pausing" then some FileStatus.pausing
  else if s = "paused" then some FileStatus.paused
  else if s = "error" then some FileStatus.error
  else if s = "cancelled" then some FileStatus.cancelled
  else if s = "done" then some FileStatus.done
  else none

/-- The `retry` command of `esgpull/cli/retry.py`, run over a database whose
files are represented by their statuses.  Returns the database state after
the command together with `true` iff the queue update was written:

    if _all:
        status = FileStatus.retryable()
    if not status:
        status = [FileStatus.Error, FileStatus.Cancelled]   # attribute lookups
    esg = Esgpull(verbosity=verbosity)                      # db opened after
    with esg.ui.logging("retry", onraise=Abort):
        assert FileStatus.Done not in status                # attribute lookup
        assert FileStatus.Queued not in status              # attribute lookup
        files = list(esg.db.scalars(sql.file.with_status(*status)))
        if not files:
            ...; raise Exit(0)
        for file in files:
            file.status = FileStatus.Queued                 # attribute lookup
        esg.db.add(*files)

Any failed attribute lookup or failed assert raises before `esg.db.add`, so
those paths return the database unchanged (`false`). -/
def retryCommand (status : List FileStatus) (all : Bool)
    (files : List FileStatus) : List FileStatus × Bool :=
  let status1 := if all then FileStatus.retryable else status
  let defaulted : Option (List FileStatus) :=
    if status1.isEmpty then
      match FileStatus.memberByName "Error",
            FileStatus.memberByName "Cancelled" with
      | some e, some c => some [e, c]
      | _, _ => none
    else some status1
  match defaulted with
  | none => (files, false)
  | some sel =>
    match FileStatus.memberByName "Done" with
    | none => (files, false)
    | some d =>
      if d ∈ sel then (files, false)
      else
        match FileStatus.memberByName "Queued" with
        | none => (files, false)
        | some q =>
          if q ∈ sel then (files, false)
          else
            let selected := files.filter (fun f => f ∈ sel)
            if selected.isEmpty then (files, false)
            else
              match FileStatus.memberByName "Queued" with
              | none => (files, false)
              | some qd =>
                (files.map (fun f => if f ∈ sel then qd else f), true)

/-! ## Facet-vocabulary refresh (Esgpull.fetch_params, esgpull/__init__.py)

The `Context` HTTP machinery and the `Database` engine are absent from the
sources; per the spec, the persistence layer is "a generic persistence
service exposing typed CRUD operations" (each call applied when made), and
the remote federation either yields per-node facet counts or fails. -/

/-- A row of the `param` table (`Param` in `esgpull/db/models.py`). -/
structure Param where
  name : String
  value : String
deriving DecidableEq, Repr

/-- Modelled from the spec: the outcome of the remote federation requests
issued by `fetch_params` — either every per-node facet-discovery request
resolves (a facet-name → (value, count) map per node), or some federation
request fails, raising out of `fetch_params`. -/
inductive RemoteOutcome where
  | ok (nodeFacets : List (List (String × List (String × Nat))))
  | fail
deriving DecidableEq

/-- Embeds `SKIP_FACETS` in `Esgpull.fetch_params`. -/
def skipFacets : List String :=
  ["cf_standard_name", "variable_long_name", "creation_date", "datetime_end"]

/-- Set insertion (`set.add`): keep first occurrence. -/
def insertNew (l : List String) (v : String) : List String :=
  if v ∈ l then l else l ++ [v]

/-- Embeds `facet_values`: keep values with nonzero count and length ≤ 255. -/
def facetValuesOf (values : List (String × Nat)) : List String :=
  values.foldl
    (fun acc p =>
      if p.2 ≠ 0 ∧ p.1.length ≤ 255 then insertNew acc p.1 else acc)
    []

/-- Embeds `facet_counts.setdefault(name, set()); facet_counts[name] |= values`. -/
def addFacet (acc : List (String × List String)) (name : String)
    (vals : List String) : List (String × List String) :=
  match acc.lookup name with
  | none => acc ++ [(name, vals)]
  | some old => assocSet acc name (vals.foldl insertNew old)

/-- The aggregation loop of `fetch_params` over all nodes' facet counts. -/
def collectFacets (nodeFacets : List (List (String × List (String × Nat)))) :
    List (String × List String) :=
  nodeFacets.foldl
    (fun acc facets =>
      facets.foldl
        (fun acc p =>
          if p.1 ∈ skipFacets ∨ p.2.isEmpty then acc
          else
            let vals := facetValuesOf p.2
            if vals.isEmpty then acc else addFacet acc p.1 vals)
        acc)
    []

/-- Embeds `new_params`: one `Param` per (facet name, value). -/
def paramsOf (fc : List (String × List String)) : List Param :=
  (fc.map (fun p => p.2.map (fun v => Param.mk p.1 v))).flatten

/-- Embeds `Esgpull.fetch_params(update)` over a database holding the `param` rows.
Returns the resulting rows and `some r` for a normal return of `r`, `none`
when the remote federation fails (the exception escapes):

    with self.db.select(Param) as ctx:
        params = ctx.scalars
    if params and not update:
        return False
    self.db.delete(*params)          # old cache deleted HERE,
    ctx = Context(distrib=True)      # before any remote request
    ... remote facet-discovery requests ...
    self.db.add(*new_params)
    return True
-/
def fetchParams (db : List Param) (update : Bool) (remote : RemoteOutcome) :
    List Param × Option Bool :=
  if ¬ db.isEmpty ∧ ¬ update then (db, some false)
  else
    match remote with
    | RemoteOutcome.fail => ([], none)
    | RemoteOutcome.ok nodeFacets =>
      (paramsOf (collectFacets nodeFacets), some true)

/-! ## Artifact resolution (File.from_dict / File.get_local_path,
esgpull/db/models.py)

These functions slice and split strings, so they are embedded over
`Str := List Char`. -/

/-- Python strings, character by character. -/
abbrev Str := List Char

/-- The characters the code splits on (brace characters are written via
their code points). -/
def vbarC : Char := '|'

def dotC : Char := '.'

def dashC : Char := '-'

def lbraceC : Char := Char.ofNat 123

def rbraceC : Char := Char.ofNat 125

/-- Split at the FIRST occurrence of `c`: `some (before, after)`, or `none`
when `c` does not occur. -/
def breakFirst (c : Char) : Str → Option (Str × Str)
  | [] => none
  | x :: xs =>
    if x = c then some ([], xs)
    else (breakFirst c xs).map (fun p => (x :: p.1, p.2))

/-- Python `s.partition(c)[0]`: everything before the first `c`, the whole
string when `c` does not occur. -/
def beforeFirst (c : Char) (s : Str) : Str :=
  match breakFirst c s with
  | some p => p.1
  | none => s

/-- Python `s.rsplit(c, 1)` when it yields two parts: split at the LAST
occurrence of `c`; `none` when `c` does not occur (in which case the code's
`[1]` indexing raises `IndexError`). -/
def rsplitOnce (c : Char) (s : Str) : Option (Str × Str) :=
  (breakFirst c s.reverse).map (fun p => (p.2.reverse, p.1.reverse))

/-- A raw-metadata value: ESGF hit records hold strings, lists of strings
and integers. -/
inductive RawVal where
  | str (s : Str)
  | list (l : List Str)
  | int (n : Int)
deriving DecidableEq, Repr

/-- A raw hit record (a JSON object: an association list with unique
keys). -/
abbrev RawDict := List (String × RawVal)

def lookupRaw (raw : RawDict) (k : String) : Option RawVal :=
  raw.lookup k

/-- Modelled from the spec: `find_str` of `esgpull/utils.py` is missing
from the sources; the spec says resolution "extract[s]" each string field
from the raw record, where a value may be wrapped in a list. -/
def findStr : RawVal → Option Str
  | RawVal.str s => some s
  | RawVal.list (x :: _) => some x
  | RawVal.list [] => none
  | RawVal.int _ => none

/-- Modelled from the spec: `find_int` of `esgpull/utils.py`, likewise. -/
def findInt : RawVal → Option Int
  | RawVal.int n => some n
  | _ => none

/-- A value that must already be a plain string (Python string
concatenation raises `TypeError` otherwise). -/
def asStr : RawVal → Option Str
  | RawVal.str s => some s
  | _ => none

/-- The `flat_raw` loop of `get_local_path`: a single-element list value is
replaced by its element. -/
def flattenVal : RawVal → RawVal
  | RawVal.list [x] => RawVal.str x
  | v => v

def flattenRaw (raw : RawDict) : RawDict :=
  raw.map (fun p => (p.1, flattenVal p.2))

/-- Embeds `flat_raw.pop(k, None)`: remove the key. -/
def eraseKey (k : String) (raw : RawDict) : RawDict :=
  raw.filter (fun p => ¬ p.1 = k)

/-- The string `"%(root)s/"` as a character list. -/
def rootMarker : Str := '%' :: '(' :: 'r' :: 'o' :: 'o' :: 't' :: ')' :: 's' :: '/' :: []

/-- Embeds `template.removeprefix("%(root)s/")`. -/
def stripRoot (t : Str) : Str :=
  if t.take rootMarker.length = rootMarker then t.drop rootMarker.length else t

/-- Embeds `template.replace` of percent-paren to open brace (left-to-right, non-overlapping, like
Python `str.replace`). -/
def replacePctParen : Str → Str
  | '%' :: '(' :: rest => lbraceC :: replacePctParen rest
  | c :: rest => c :: replacePctParen rest
  | [] => []

/-- Embeds `template.replace` of paren-s to close brace. -/
def replaceParenS : Str → Str
  | ')' :: 's' :: rest => rbraceC :: replaceParenS rest
  | c :: rest => c :: replaceParenS rest
  | [] => []

/-- Python `str()` of a raw value, for substitution fields
(`str.format` stringifies non-string arguments). -/
def rawValStr : RawVal → Str
  | RawVal.str s => s
  | RawVal.list l =>
    '[' :: (joinComma (l.map (fun s => String.mk s))).data ++ [']']
  | RawVal.int n => (toString n).data

def lookupField (fields : List (Str × Str)) (k : Str) : Option Str :=
  fields.lookup k

mutual

/-- Python `template.format(**fields)`: copy characters, substituting each
`{name}` field; a name absent from `fields` raises `KeyError` (`none`). -/
def formatStr (fields : List (Str × Str)) : Str → Option Str
  | [] => some []
  | c :: rest =>
    if c = lbraceC then formatField fields [] rest
    else (formatStr fields rest).map (fun t => c :: t)

/-- Scan a field name up to the closing brace (`acc` holds the name's
characters in reverse). -/
def formatField (fields : List (Str × Str)) (acc : Str) : Str → Option Str
  | [] => none
  | c :: rest =>
    if c = rbraceC then
      match lookupField fields acc.reverse with
      | none => none
      | some v => (formatStr fields rest).map (fun t => v ++ t)
    else formatField fields (c :: acc) rest

end

/-- The substitution fields: the resolved `version` plus every flattened
metadata field (`template.format(version=version, **flat_raw)`). -/
def fieldsOf (version : Str) (flat : RawDict) : List (Str × Str) :=
  ("version".data, version) :: flat.map (fun p => (p.1.data, rawValStr p.2))

/-- Embeds `File.get_local_path(raw, version)` of `esgpull/db/models.py`:

    flat_raw = {k: v[0] if single-element list else v for k, v in raw.items()}
    template = find_str(flat_raw["directory_format_template_"])   # KeyError
    template = template.removeprefix("%(root)s/")
    template = template.replace("%(", "{").replace(")s", "}")
    flat_raw.pop("version", None)
    if "rcm_name" in flat_raw:            # cordex special case
        institute = flat_raw["institute"]                          # KeyError
        rcm_model = institute + "-" + flat_raw["rcm_name"]
        flat_raw["rcm_model"] = rcm_model
    return template.format(version=version, **flat_raw)

`none` models an escaping exception. -/
def getLocalPath (raw : RawDict) (version : Str) : Option Str := do
  let flat := flattenRaw raw
  let tv ← lookupRaw flat "directory_format_template_"
  let template0 ← findStr tv
  let template := replaceParenS (replacePctParen (stripRoot template0))
  let flat := eraseKey "version" flat
  let flat ←
    if (lookupRaw flat "rcm_name").isSome then do
      let instv ← lookupRaw flat "institute"
      let inst ← asStr instv
      let rcmv ← lookupRaw flat "rcm_name"
      let rcm ← asStr rcmv
      pure (flat ++ [("rcm_model", RawVal.str (inst ++ dashC :: rcm))])
    else
      pure flat
  formatStr (fieldsOf version flat) template

/-- The `File` record of `esgpull/db/models.py` (the fields `from_dict`
fills; the `id` primary key and `last_updated` are database-generated, and
`status` defaults to `new`). -/
structure File where
  file_id : Str
  dataset_id : Str
  master_id : Str
  url : Str
  version : Str
  filename : Str
  local_path : Str
  data_node : Str
  checksum : Str
  checksum_type : Str
  size : Int
deriving DecidableEq, Repr

/-- Embeds `File.from_dict(raw)` of `esgpull/db/models.py`:

    dataset_id = find_str(raw["dataset_id"]).partition("|")[0]
    filename = find_str(raw["title"])
    url = find_str(raw["url"]).partition("|")[0]
    data_node = find_str(raw["data_node"])
    checksum = find_str(raw["checksum"])
    checksum_type = find_str(raw["checksum_type"])
    size = find_int(raw["size"])
    file_id = ".".join([dataset_id, filename])
    dataset_master = dataset_id.rsplit(".", 1)[0]  # remove version
    master_id = ".".join([dataset_master, filename])
    version = dataset_id.rsplit(".", 1)[1]
    local_path = cls.get_local_path(raw, version)

`none` models an escaping exception (KeyError / IndexError). -/
def File.fromDict (raw : RawDict) : Option File := do
  let ds ← (lookupRaw raw "dataset_id").bind findStr
  let dataset_id := beforeFirst vbarC ds
  let filename ← (lookupRaw raw "title").bind findStr
  let u ← (lookupRaw raw "url").bind findStr
  let url := beforeFirst vbarC u
  let data_node ← (lookupRaw raw "data_node").bind findStr
  let checksum ← (lookupRaw raw "checksum").bind findStr
  let checksum_type ← (lookupRaw raw "checksum_type").bind findStr
  let size ← (lookupRaw raw "size").bind findInt
  let file_id := dataset_id ++ dotC :: filename
  let p ← rsplitOnce dotC dataset_id
  let master_id := p.1 ++ dotC :: filename
  let version := p.2
  let local_path ← getLocalPath raw version
  pure
    { file_id := file_id
      dataset_id := dataset_id
      master_id := master_id
      url := url
      version := version
      filename := filename
      local_path := local_path
      data_node := data_node
      checksum := checksum
      checksum_type := checksum_type
      size := size }

/-! ## Supporting lemmas on the string-splitting helpers -/

theorem breakFirst_of_not_mem {c : Char} {l : Str} (h : ¬ c ∈ l) :
    breakFirst c l = none := by
  induction l with
  | nil => rfl
  | cons x xs ih =>
    have hx : ¬ x = c := fun e => h (e ▸ List.mem_cons_self x xs)
    have hxs : ¬ c ∈ xs := fun m => h (List.mem_cons_of_mem _ m)
    simp [breakFirst, hx, ih hxs]

theorem breakFirst_append_cons {c : Char} {A B : Str} (h : ¬ c ∈ A) :
    breakFirst c (A ++ c :: B) = some (A, B) := by
  induction A with
  | nil => simp [breakFirst]
  | cons x xs ih =>
    have hx : ¬ x = c := fun e => h (e ▸ List.mem_cons_self x xs)
    have hxs : ¬ c ∈ xs := fun m => h (List.mem_cons_of_mem _ m)
    simp [breakFirst, hx, ih hxs]

theorem beforeFirst_of_not_mem {c : Char} {l : Str} (h : ¬ c ∈ l) :
    beforeFirst c l = l := by
  simp [beforeFirst, breakFirst_of_not_mem h]

theorem beforeFirst_append_cons {c : Char} {A B : Str} (h : ¬ c ∈ A) :
    beforeFirst c (A ++ c :: B) = A := by
  simp [beforeFirst, breakFirst_append_cons h]

theorem rsplitOnce_append_cons {c : Char} {D V : Str} (h : ¬ c ∈ V) :
    rsplitOnce c (D ++ c :: V) = some (D, V) := by
  have hrev : ¬ c ∈ V.reverse := fun m => h (List.mem_reverse.mp m)
  have : (D ++ c :: V).reverse = V.reverse ++ c :: D.reverse := by
    simp [List.reverse_append]
  simp [rsplitOnce, this, breakFirst_append_cons hrev]

theorem lookup_flattenRaw (raw : RawDict) (k : String) :
    lookupRaw (flattenRaw raw) k = (lookupRaw raw k).map flattenVal := by
  induction raw with
  | nil => rfl
  | cons p rest ih =>
    cases hb : k == p.1 with
    | true => simp [lookupRaw, flattenRaw, List.lookup, hb]
    | false =>
      simp only [lookupRaw, flattenRaw, List.lookup, List.map_cons, hb]
      exact ih

theorem lookup_eraseKey_ne (k k2 : String) (raw : RawDict) (h : ¬ k2 = k) :
    lookupRaw (eraseKey k raw) k2 = lookupRaw raw k2 := by
  induction raw with
  | nil => rfl
  | cons p rest ih =>
    by_cases hp : p.1 = k
    · have hd : (decide ¬ p.1 = k) = false := by simp [hp]
      have hk2 : (k2 == p.1) = false := beq_false_of_ne (fun e => h (hp ▸ e))
      simp only [lookupRaw, eraseKey, List.filter_cons, hd, Bool.false_eq_true,
        if_false, List.lookup, hk2]
      exact ih
    · have hd : (decide ¬ p.1 = k) = true := by simp [hp]
      cases hb : k2 == p.1 with
      | true =>
        simp [lookupRaw, eraseKey, List.filter_cons, hp, hd, List.lookup, hb]
      | false =>
        simp only [lookupRaw, eraseKey, List.filter_cons, hd, if_true,
          List.lookup, hb]
        exact ih

/-! ## Claim theorems -/

/-- Concrete operands exercising the options-merge path: the base query
has the replica flag explicitly `false`, the override has it explicitly
`true`. -/
def qBase : Query :=
  ⟨[], false, none, ⟨[("replica", false)]⟩, ⟨[]⟩⟩

def qOver : Query :=
  ⟨[], false, none, ⟨[("replica", true)]⟩, ⟨[]⟩⟩

/-- C1: the claim states that the merged query's Options are base's Options
with every flag present in the override replaced by the override's value.
The code instead applies the override's flags to `self.options` (the base
operand) and leaves the returned query's Options untouched: at the failing
input below the merged query keeps base's `replica = false`, while the
claim requires `replica = true`. -/
theorem c1_merge_options_bug :
    (Query.lshift qBase qOver).1.options = Options.mk [("replica", false)] ∧
    Options.mk [("replica", false)] ≠ Options.mk [("replica", true)] := by
  constructor
  · rfl
  · decide

/-- C2: the claim states retrying from any of the seven retryable states
succeeds and results in `queued`.  `FileStatus.retryable` is indeed exactly
those seven states, but the retry command's asserts reference
`FileStatus.Done` and `FileStatus.Queued`, which the enum (lowercase
members) does not define, so every invocation — here a retry of an `error`
file with the `error` status selected — raises `AttributeError` and leaves
every status unchanged instead of queueing. -/
theorem c2_retry_attribute_bug :
    FileStatus.retryable =
      [ FileStatus.new, FileStatus.starting, FileStatus.started
      , FileStatus.pausing, FileStatus.paused, FileStatus.error
      , FileStatus.cancelled ] ∧
    retryCommand [FileStatus.error] false [FileStatus.error]
      = ([FileStatus.error], false) ∧
    ([FileStatus.error], false) ≠ ([FileStatus.queued], true) := by
  refine ⟨rfl, rfl, by decide⟩

/-- C3: the identity of a Query is computed solely from the triple
(requires reference, Options identity, Selection identity): two queries
agreeing on that triple — whatever their tags or transient flag — have the
same identity, for every hash function. -/
theorem c3_identity_triple (hashFn : String → String) (q1 q2 : Query)
    (hr : q1.require = q2.require)
    (ho : Options.sha hashFn q1.options = Options.sha hashFn q2.options)
    (hs : Selection.sha hashFn q1.selection
        = Selection.sha hashFn q2.selection) :
    Query.computeSha hashFn q1 = Query.computeSha hashFn q2 := by
  unfold Query.computeSha Query.asBytes
  rw [hr, ho, hs]

def c3q1 : Query :=
  ⟨["tagA"], false, some "req", ⟨[("latest", true)]⟩, ⟨[("variable", ["tas"])]⟩⟩

def c3q2 : Query :=
  ⟨["tagB", "tagC"], false, some "req", ⟨[("latest", true)]⟩,
    ⟨[("variable", ["tas"])]⟩⟩

/-- Witness for C3: two concrete queries that differ only in their tags
have equal identity. -/
theorem c3_identity_triple_witness :
    c3q1.tags ≠ c3q2.tags ∧
    Query.computeSha id c3q1 = Query.computeSha id c3q2 :=
  ⟨by decide, c3_identity_triple id c3q1 c3q2 rfl rfl rfl⟩

/-- C4: the claim states merge is pure on its operands.  The options loop
of `__lshift__` writes the override's flags onto `self.options`, mutating
the base operand: at the failing input the base's Options after the call
differ from its Options before the call (`replica` flipped to `true`). -/
theorem c4_merge_mutates_base :
    (Query.lshift qBase qOver).2.options ≠ qBase.options ∧
    (Query.lshift qBase qOver).2.options = Options.mk [("replica", true)] := by
  refine ⟨by decide, rfl⟩

/-- Counterexample to C5: the claim states the merged query carries no
requires reference regardless of the operands'.  Merging a base whose
`require` is `"abcdef"` with an override without one yields a query whose
`require` is still `"abcdef"` (`clone` copies `require` through `asdict`
and `__lshift__` never clears it). -/
theorem c5_require_copied_counterexample :
    (Query.lshift ⟨[], false, some "abcdef", ⟨[]⟩, ⟨[]⟩⟩
        ⟨[], false, none, ⟨[]⟩, ⟨[]⟩⟩).1.require = some "abcdef" := rfl

/-- C5 as amended: the merged query's requires reference equals the base
operand's (the override's is never copied). -/
theorem c5_require_from_base (base override : Query) :
    (Query.lshift base override).1.require = base.require := rfl

/-- Counterexample to C8: the claim states that after a remote federation
failure the previously persisted Param cache entries are still present.
`fetch_params` deletes the whole cache before issuing any remote request,
so with one persisted entry and a failing federation the resulting cache no
longer holds that entry. -/
theorem c8_cache_lost_counterexample :
    ¬ Param.mk "mip_era" "CMIP6"
        ∈ (fetchParams [Param.mk "mip_era" "CMIP6"] true
            RemoteOutcome.fail).1 := by
  decide

/-- C8 as amended: once the refresh proceeds past the non-empty-cache early
return, the old cache is deleted before any remote request is issued, so a
remote failure leaves the cache empty (the previously persisted entries are
lost); the new entries are inserted only after all remote results
resolve. -/
theorem c8_delete_before_remote :
    (∀ db : List Param,
        fetchParams db true RemoteOutcome.fail = ([], none)) ∧
    fetchParams [] false RemoteOutcome.fail = ([], none) := by
  constructor
  · intro db
    simp [fetchParams]
  · rfl

/-- C9: invoking retry with an empty status selection and the all-flag
unset hits the default path `[FileStatus.Error, FileStatus.Cancelled]`;
neither member exists on the enum (its members are the lowercase state
names), so the command raises `AttributeError` there — before the database
is even opened — and every artifact keeps its status. -/
theorem c9_default_retry_raises (files : List FileStatus) :
    retryCommand [] false files = (files, false) := rfl

/-- C10: whenever the flattened metadata has an "rcm_name" key, the CORDEX
special case reads the "institute" key unconditionally; if "institute" is
absent the lookup raises `KeyError` and no path is derived. -/
theorem c10_cordex_keyerror (raw : RawDict) (version : Str)
    (hr : (lookupRaw raw "rcm_name").isSome = true)
    (hi : lookupRaw raw "institute" = none) :
    getLocalPath raw version = none := by
  have h1 : (lookupRaw (eraseKey "version" (flattenRaw raw))
      "rcm_name").isSome = true := by
    rw [lookup_eraseKey_ne _ _ _ (by decide), lookup_flattenRaw]
    cases hrm : lookupRaw raw "rcm_name" with
    | none => rw [hrm] at hr; exact absurd hr (by decide)
    | some v => rfl
  have h2 : lookupRaw (eraseKey "version" (flattenRaw raw))
      "institute" = none := by
    rw [lookup_eraseKey_ne _ _ _ (by decide), lookup_flattenRaw, hi]
    rfl
  unfold getLocalPath
  cases ht : lookupRaw (flattenRaw raw) "directory_format_template_" with
  | none => simp [ht]
  | some tv =>
    cases hs : findStr tv with
    | none => simp [ht, hs]
    | some t0 => simp [ht, hs, h1, h2]

/-- Concrete metadata for the C10 witness: an "rcm_name" key but no
"institute" key. -/
def c10raw : RawDict :=
  [ ("directory_format_template_",
      RawVal.str "%(root)s/%(version)s".data)
  , ("rcm_name", RawVal.str "RCM".data) ]

/-- Witness for C10: on the concrete metadata the derivation fails even
though the template itself needs no CORDEX field. -/
theorem c10_cordex_keyerror_witness :
    (lookupRaw c10raw "rcm_name").isSome = true ∧
    lookupRaw c10raw "institute" = none ∧
    getLocalPath c10raw "v1".data = none :=
  ⟨by decide, by decide,
    c10_cordex_keyerror c10raw ("v1".data) (by decide) (by decide)⟩

/-- Concrete record for C7: the spec's example template and metadata. -/
def c7raw : RawDict :=
  [ ("directory_format_template_",
      RawVal.str "%(root)s/%(a)s/%(b)s/%(version)s".data)
  , ("a", RawVal.str "x".data)
  , ("b", RawVal.str "y".data) ]

/-- C7: local-path derivation strips the leading root segment of the
template, converts every placeholder to a substitution field, and
substitutes the metadata plus the resolved version: on the spec's example
the stripped template is the placeholder tail, the converted template is
the braced form, and the derived path is "x/y/v1". -/
theorem c7_local_path :
    stripRoot "%(root)s/%(a)s/%(b)s/%(version)s".data
      = "%(a)s/%(b)s/%(version)s".data ∧
    replaceParenS (replacePctParen "%(a)s/%(b)s/%(version)s".data)
      = "\x7ba\x7d/\x7bb\x7d/\x7bversion\x7d".data ∧
    getLocalPath c7raw "v1".data = some "x/y/v1".data := by
  refine ⟨by decide, by decide, by decide⟩

theorem findStr_str (s : Str) : findStr (RawVal.str s) = some s := rfl

/-- C6: for a raw hit whose dataset identity is `D.V` (with `V` the
dot-free trailing version segment), optionally carrying a `|node` replica
qualifier, and whose filename is `F`, any successful resolution yields
`file_id = D.V.F`, `master_id = D.F`, `version = V`, and stores the
dataset identity and the source URL with their replica qualifiers
stripped. -/
theorem c6_resolution (raw : RawDict) (f : File)
    (D V F U tl tlu : Str)
    (hds : lookupRaw raw "dataset_id"
      = some (RawVal.str (D ++ dotC :: V ++ tl)))
    (htl : tl = [] ∨ ∃ node, tl = vbarC :: node)
    (hDv : ¬ vbarC ∈ D) (hVv : ¬ vbarC ∈ V) (hVd : ¬ dotC ∈ V)
    (ht : lookupRaw raw "title" = some (RawVal.str F))
    (hu : lookupRaw raw "url" = some (RawVal.str (U ++ tlu)))
    (htlu : tlu = [] ∨ ∃ r, tlu = vbarC :: r)
    (hUv : ¬ vbarC ∈ U)
    (hf : File.fromDict raw = some f) :
    f.file_id = D ++ dotC :: V ++ dotC :: F ∧
    f.master_id = D ++ dotC :: F ∧
    f.version = V ∧
    f.dataset_id = D ++ dotC :: V ∧
    f.url = U := by
  have hnotbar : ¬ vbarC ∈ (D ++ dotC :: V) := by
    intro m
    rcases List.mem_append.mp m with m | m
    · exact hDv m
    · rcases List.mem_cons.mp m with e | m
      · exact absurd e (by decide)
      · exact hVv m
  have hbf : beforeFirst vbarC (D ++ dotC :: V ++ tl) = D ++ dotC :: V := by
    rcases htl with rfl | ⟨node, rfl⟩
    · simpa using beforeFirst_of_not_mem hnotbar
    · exact beforeFirst_append_cons hnotbar
  have hbu : beforeFirst vbarC (U ++ tlu) = U := by
    rcases htlu with rfl | ⟨r, rfl⟩
    · simpa using beforeFirst_of_not_mem hUv
    · exact beforeFirst_append_cons hUv
  have hrs : rsplitOnce dotC (D ++ dotC :: V) = some (D, V) :=
    rsplitOnce_append_cons hVd
  unfold File.fromDict at hf
  rw [hds, ht, hu] at hf
  simp only [Option.bind_eq_bind, Option.some_bind, findStr_str] at hf
  rw [hbf, hbu, hrs] at hf
  simp only [Option.some_bind] at hf
  cases hdn : (lookupRaw raw "data_node").bind findStr with
  | none => rw [hdn] at hf; simp at hf
  | some dn =>
  rw [hdn] at hf
  simp only [Option.some_bind] at hf
  cases hcs : (lookupRaw raw "checksum").bind findStr with
  | none => rw [hcs] at hf; simp at hf
  | some cs =>
  rw [hcs] at hf
  simp only [Option.some_bind] at hf
  cases hct : (lookupRaw raw "checksum_type").bind findStr with
  | none => rw [hct] at hf; simp at hf
  | some ct =>
  rw [hct] at hf
  simp only [Option.some_bind] at hf
  cases hsz : (lookupRaw raw "size").bind findInt with
  | none => rw [hsz] at hf; simp at hf
  | some sz =>
  rw [hsz] at hf
  simp only [Option.some_bind] at hf
  cases hlp : getLocalPath raw V with
  | none => rw [hlp] at hf; simp at hf
  | some lp =>
  rw [hlp] at hf
  simp only [Option.some_bind] at hf
  injection hf with hf
  subst hf
  exact ⟨rfl, rfl, rfl, rfl, rfl⟩

/-- Concrete raw hit for the C6 witness (dataset identity and URL both
carry replica qualifiers). -/
def c6raw : RawDict :=
  [ ("dataset_id", RawVal.str "cmip5.output.mod.v20120101|esgf.node.org".data)
  , ("title", RawVal.str "tas.nc".data)
  , ("url",
      RawVal.str "http://host/tas.nc|application/netcdf|HTTPServer".data)
  , ("data_node", RawVal.str "esgf.node.org".data)
  , ("checksum", RawVal.str "abc123".data)
  , ("checksum_type", RawVal.str "SHA256".data)
  , ("size", RawVal.int 42)
  , ("directory_format_template_", RawVal.str "%(root)s/%(version)s".data) ]

/-- The resolved record for the C6 witness. -/
def c6file : File :=
  { file_id := "cmip5.output.mod.v20120101.tas.nc".data
    dataset_id := "cmip5.output.mod.v20120101".data
    master_id := "cmip5.output.mod.tas.nc".data
    url := "http://host/tas.nc".data
    version := "v20120101".data
    filename := "tas.nc".data
    local_path := "v20120101".data
    data_node := "esgf.node.org".data
    checksum := "abc123".data
    checksum_type := "SHA256".data
    size := 42 }

/-- Witness for C6: on the concrete raw hit, resolution succeeds and the
identifiers come out as the claim describes. -/
theorem c6_resolution_witness :
    File.fromDict c6raw = some c6file ∧
    c6file.file_id
      = "cmip5.output.mod".data ++ dotC :: "v20120101".data
          ++ dotC :: "tas.nc".data ∧
    c6file.master_id = "cmip5.output.mod".data ++ dotC :: "tas.nc".data ∧
    c6file.version = "v20120101".data ∧
    c6file.dataset_id
      = "cmip5.output.mod".data ++ dotC :: "v20120101".data ∧
    c6file.url = "http://host/tas.nc".data := by
  have hfrom : File.fromDict c6raw = some c6file := by decide
  have h := c6_resolution c6raw c6file "cmip5.output.mod".data
    "v20120101".data "tas.nc".data "http://host/tas.nc".data
    (vbarC :: "esgf.node.org".data)
    (vbarC :: "application/netcdf|HTTPServer".data)
    (by decide) (Or.inr ⟨"esgf.node.org".data, rfl⟩)
    (by decide) (by decide) (by decide)
    (by decide) (by decide)
    (Or.inr ⟨"application/netcdf|HTTPServer".data, rfl⟩)
    (by decide) hfrom
  exact ⟨hfrom, h.1, h.2.1, h.2.2.1, h.2.2.2.1, h.2.2.2.2⟩

end Esgpull
